import Mathlib

/-!
Verification of the uptrace trace-ingestion core (package `tracing`).

The definitions below are a shallow embedding of the Go source:
`newSpan`, `assignSystemAndGroupID`, `hashDBStmt`, `isSQLKeyword`,
`newSpanIndex`, `attrKeysAndValues`, `Export`, `findProjectByDSN` and
`processLoop` follow the source line by line.  Machine integers are
modelled as `Nat`/`Int` with explicit reductions modulo `2 ^ 64` (Go's
`uint64` wrap-around) and `2 ^ 8` (Go's `uint8` conversion).  The span
`GroupID` is the real 64-bit xxHash (seed 0) of the bytes fed to the
digest, implemented below and checked against the reference test
vectors of the `cespare/xxhash` library that the source imports.
-/

set_option maxRecDepth 100000

namespace Uptrace

/-! ### UTF-8 byte encoding of strings (hash input and truncation) -/

/-- UTF-8 encoding of one character, as a list of byte values. -/
def utf8EncodeChar (c : Char) : List Nat :=
  let n := c.toNat
  if n < 0x80 then [n]
  else if n < 0x800 then
    [0xC0 ||| (n >>> 6), 0x80 ||| (n &&& 0x3F)]
  else if n < 0x10000 then
    [0xE0 ||| (n >>> 12), 0x80 ||| ((n >>> 6) &&& 0x3F), 0x80 ||| (n &&& 0x3F)]
  else
    [0xF0 ||| (n >>> 18), 0x80 ||| ((n >>> 12) &&& 0x3F),
      0x80 ||| ((n >>> 6) &&& 0x3F), 0x80 ||| (n &&& 0x3F)]

/-- UTF-8 bytes of a string (what `Digest.WriteString` feeds to the hash). -/
def strBytes (s : String) : List Nat :=
  (s.data.map utf8EncodeChar).flatten

/-- Number of UTF-8 bytes of a string (Go `len(s)`). -/
def utf8Len (s : String) : Nat :=
  (s.data.map (fun c => (utf8EncodeChar c).length)).sum

/-! ### XXH64 (seed 0), the hash used for `GroupID`

Direct transcription of the XXH64 algorithm over `Nat`, with every
64-bit operation reduced modulo `2 ^ 64`. -/

def m64 : Nat := 2 ^ 64

def xxPrime1 : Nat := 11400714785074694791
def xxPrime2 : Nat := 14029467366897019727
def xxPrime3 : Nat := 1609587929392839161
def xxPrime4 : Nat := 9650029242287828579
def xxPrime5 : Nat := 2870177450012600261

/-- 64-bit rotate left of a value `x < 2 ^ 64`. -/
def rotl64 (x n : Nat) : Nat :=
  ((x <<< n) ||| (x >>> (64 - n))) % m64

/-- Little-endian value of a byte list. -/
def leVal (bs : List Nat) : Nat :=
  bs.foldr (fun b acc => b + 256 * acc) 0

def xxRound (acc input : Nat) : Nat :=
  (rotl64 ((acc + input * xxPrime2) % m64) 31 * xxPrime1) % m64

def xxMergeRound (acc val : Nat) : Nat :=
  ((Nat.xor acc (xxRound 0 val)) * xxPrime1 % m64 + xxPrime4) % m64

def xxFinal1 (h : Nat) : List Nat → Nat
  | [] => h
  | b :: bs =>
      xxFinal1 ((rotl64 (Nat.xor h (b * xxPrime5 % m64)) 11 * xxPrime1) % m64) bs

def xxFinal4 (h : Nat) : List Nat → Nat
  | b0 :: b1 :: b2 :: b3 :: rest =>
      xxFinal1 ((rotl64 (Nat.xor h (leVal [b0, b1, b2, b3] * xxPrime1 % m64)) 23
          * xxPrime2 + xxPrime3) % m64) rest
  | bs => xxFinal1 h bs

def xxFinal8 (h : Nat) : List Nat → Nat
  | b0 :: b1 :: b2 :: b3 :: b4 :: b5 :: b6 :: b7 :: rest =>
      xxFinal8 ((rotl64 (Nat.xor h (xxRound 0 (leVal [b0, b1, b2, b3, b4, b5, b6, b7]))) 27
          * xxPrime1 + xxPrime4) % m64) rest
  | bs => xxFinal4 h bs

def xxStripes (v1 v2 v3 v4 : Nat) : List Nat → Nat × Nat × Nat × Nat × List Nat
  | b0 :: b1 :: b2 :: b3 :: b4 :: b5 :: b6 :: b7 ::
    b8 :: b9 :: b10 :: b11 :: b12 :: b13 :: b14 :: b15 ::
    b16 :: b17 :: b18 :: b19 :: b20 :: b21 :: b22 :: b23 ::
    b24 :: b25 :: b26 :: b27 :: b28 :: b29 :: b30 :: b31 :: rest =>
      xxStripes
        (xxRound v1 (leVal [b0, b1, b2, b3, b4, b5, b6, b7]))
        (xxRound v2 (leVal [b8, b9, b10, b11, b12, b13, b14, b15]))
        (xxRound v3 (leVal [b16, b17, b18, b19, b20, b21, b22, b23]))
        (xxRound v4 (leVal [b24, b25, b26, b27, b28, b29, b30, b31]))
        rest
  | bs => (v1, v2, v3, v4, bs)

def xxAvalanche (h0 : Nat) : Nat :=
  let h1 := Nat.xor h0 (h0 >>> 33)
  let h2 := h1 * xxPrime2 % m64
  let h3 := Nat.xor h2 (h2 >>> 29)
  let h4 := h3 * xxPrime3 % m64
  Nat.xor h4 (h4 >>> 32)

/-- XXH64 with seed 0 of a byte list (as in `xxhash.Digest.Sum64`). -/
def xxh64 (bs : List Nat) : Nat :=
  let len := bs.length
  let h :=
    if 32 ≤ len then
      match xxStripes ((xxPrime1 + xxPrime2) % m64) xxPrime2 0
          ((m64 - xxPrime1) % m64) bs with
      | (v1, v2, v3, v4, rest) =>
          let h0 := (rotl64 v1 1 + rotl64 v2 7 + rotl64 v3 12 + rotl64 v4 18) % m64
          let h1 := xxMergeRound h0 v1
          let h2 := xxMergeRound h1 v2
          let h3 := xxMergeRound h2 v3
          let h4 := xxMergeRound h3 v4
          xxFinal8 ((h4 + len) % m64) rest
    else
      xxFinal8 ((xxPrime5 + len) % m64) bs
  xxAvalanche h

/-- Reference vector of the `cespare/xxhash` test suite: the empty input. -/
theorem xxh64_vector_empty : xxh64 (strBytes "") = 0xef46db3751d8e999 := by
  decide

/-- Reference vector of the `cespare/xxhash` test suite: input `asdf`. -/
theorem xxh64_vector_asdf : xxh64 (strBytes "asdf") = 0x415872f599cea71e := by
  decide

/-- Reference vector of the `cespare/xxhash` test suite: a 64-byte input
exercising the 32-byte stripe loop. -/
theorem xxh64_vector_long :
    xxh64 (strBytes "Call me Ishmael. Some years ago--never mind how long precisely-")
      = 0x02a2e85470d6fd96 := by
  decide

/-! ### Attribute values and maps -/

/-- Scalar attribute values (string, bool, int64, float64).  A float64 is
carried by its canonical decimal rendering, which is all the pipeline
ever uses of it. -/
inductive AttrScalar
  | str (s : String)
  | boolV (b : Bool)
  | intV (i : Int)
  | floatV (render : String)
deriving DecidableEq

/-- Attribute values: a scalar or a homogeneous array of scalars. -/
inductive AttrValue
  | scalar (v : AttrScalar)
  | arr (xs : List AttrScalar)
deriving DecidableEq

def AttrScalar.asStr : AttrScalar → String
  | .str s => s
  | .boolV b => if b then "true" else "false"
  | .intV i => toString i
  | .floatV render => render

/-- Modelled from the spec: `asString` is the stable canonical rendering of an
attribute value (strings unquoted, scalars in decimal/boolean form, arrays
bracketed and comma-separated). -/
def asString : AttrValue → String
  | .scalar v => v.asStr
  | .arr xs => "[" ++ String.intercalate "," (xs.map AttrScalar.asStr) ++ "]"

/-- `AttrMap` is Go's `map[string]interface{}`, modelled as an association
list with unique keys; `set` is map assignment, `get` is map lookup. -/
abbrev AttrMap := List (String × AttrValue)

def AttrMap.get : AttrMap → String → Option AttrValue
  | [], _ => none
  | (k, v) :: rest, key => if k = key then some v else AttrMap.get rest key

def AttrMap.set : AttrMap → String → AttrValue → AttrMap
  | [], key, val => [(key, val)]
  | (k, v) :: rest, key, val =>
      if k = key then (k, val) :: rest else (k, v) :: AttrMap.set rest key val

/-- Modelled from the spec: `AttrMap.Text` returns the attribute's string
value, or the empty string when the key is absent or not a string
(the method lives in the repository's span model, outside `src/`). -/
def AttrMap.Text (m : AttrMap) (key : String) : String :=
  match m.get key with
  | some (.scalar (.str s)) => s
  | _ => ""

/-- Modelled from the spec: `AttrMap.Has` reports whether the key is present. -/
def AttrMap.Has (m : AttrMap) (key : String) : Bool :=
  (m.get key).isSome

/-! ### Attribute keys (`pkg/tracing/xattr`, referenced by the source) -/

namespace xattr

def RPCSystem : String := "rpc.system"

def MessagingSystem : String := "messaging.system"

def MessagingOperation : String := "messaging.operation"

def DBSystem : String := "db.system"

def DBStatement : String := "db.statement"

def DBSqlTable : String := "db.sql.table"

def HTTPRoute : String := "http.route"

def HTTPTarget : String := "http.target"

def ServiceName : String := "service.name"

def HostName : String := "host.name"

def LogMessage : String := "log.message"

def LogSeverity : String := "log.severity"

def ExceptionType : String := "exception.type"

def ExceptionMessage : String := "exception.message"

def OtelLibraryName : String := "otel.library.name"

def OtelLibraryVersion : String := "otel.library.version"

end xattr

/-- Modelled from the spec: `ServiceName(Attrs)` returns
`attrs["service.name"]` or an empty string. -/
def AttrMap.ServiceName (m : AttrMap) : String :=
  m.Text xattr.ServiceName

/-! ### SQL statement tokenization (`pkg/sqlparser`, referenced by the source) -/

def isIdentStart (c : Char) : Bool := c.isAlpha || c = '_'

def isIdentCont (c : Char) : Bool := c.isAlphanum || c = '_'

/-- The single-quote character. -/
def quoteChar : Char := Char.ofNat 39

/-- Modelled from the spec: the `sqlparser` tokenizer scans the statement;
identifier tokens are maximal alphanumeric/underscore runs starting with a
letter or underscore, single-quoted literals and all other characters are
non-identifier tokens.  `sqlScan` returns the identifier tokens in order;
the fuel argument (the number of remaining characters) only drives
structural recursion. -/
def sqlScan : Nat → List Char → List String
  | 0, _ => []
  | _, [] => []
  | fuel + 1, c :: cs =>
      if isIdentStart c then
        String.mk (c :: cs.takeWhile isIdentCont) ::
          sqlScan fuel (cs.dropWhile isIdentCont)
      else if c = quoteChar then
        sqlScan fuel ((cs.dropWhile (fun d => d != quoteChar)).drop 1)
      else
        sqlScan fuel cs

def sqlIdentTokens (s : String) : List String :=
  sqlScan s.data.length s.data

/-- Go `strings.ToUpper` (over the characters of the string). -/
def goToUpper (s : String) : String :=
  String.mk (s.data.map Char.toUpper)

/-- From the source `isSQLKeyword`: case-insensitive membership in the fixed
keyword set. -/
def isSQLKeyword (s : String) : Bool :=
  match goToUpper s with
  | "SELECT" | "INSERT" | "UPDATE" | "DELETE" | "CREATE" | "DROP" | "TRUNCATE"
  | "WITH" | "FROM" | "TABLE" | "JOIN" | "UNION" | "WHERE" | "GROUP" | "LIMIT"
  | "ORDER" | "HAVING" => true
  | _ => false

/-- The identifier tokens of a statement that are SQL keywords, in order. -/
def sqlKeywordTokens (s : String) : List String :=
  (sqlIdentTokens s).filter isSQLKeyword

/-- From the source `hashDBStmt`: the digest contribution of a statement is
the concatenation of its keyword tokens' texts. -/
def hashDBStmt (s : String) : String :=
  String.join (sqlKeywordTokens s)

/-! ### Wire model (OTLP span, abstracted as in the spec) -/

inductive SpanKind
  | unspecified
  | internal
  | server
  | client
  | producer
  | consumer
deriving DecidableEq

/-- Modelled from the spec: `otlpSpanKind` is the lowercase enum name. -/
def otlpSpanKind : SpanKind → String
  | .unspecified => "unspecified"
  | .internal => "internal"
  | .server => "server"
  | .client => "client"
  | .producer => "producer"
  | .consumer => "consumer"

/-- The `internalSpanKind` constant of the source's OTLP helpers. -/
def internalSpanKind : String := "internal"

inductive OtlpStatusCode
  | unset
  | ok
  | error
deriving DecidableEq

/-- Modelled from the spec: status code enum to string, unset→"unset",
ok→"ok", error→"error". -/
def otlpStatusCode : OtlpStatusCode → String
  | .unset => "unset"
  | .ok => "ok"
  | .error => "error"

structure WireStatus where
  code : OtlpStatusCode
  message : String
deriving DecidableEq

structure WireEvent where
  name : String := ""
  timeUnixNano : Nat := 0
  attributes : List (String × AttrValue) := []
deriving DecidableEq

structure WireLink where
  traceId : List Nat := []
  spanId : List Nat := []
  attributes : List (String × AttrValue) := []
deriving DecidableEq

structure WireSpan where
  traceId : List Nat := []
  spanId : List Nat := []
  parentSpanId : List Nat := []
  name : String := ""
  kind : SpanKind := .unspecified
  startTimeUnixNano : Nat := 0
  endTimeUnixNano : Nat := 0
  attributes : List (String × AttrValue) := []
  events : List WireEvent := []
  links : List WireLink := []
  status : Option WireStatus := none
deriving DecidableEq

/-- Modelled from the spec: `otlpSpanID` decodes the 8 little-endian bytes of
a span id (a missing id decodes to 0, and all-zero bytes decode to 0). -/
def otlpSpanID (bs : List Nat) : Nat :=
  if bs.length = 8 then leVal bs else 0

/-- Modelled from the spec: `otlpTraceID` decodes the 16 little-endian bytes
of a trace id. -/
def otlpTraceID (bs : List Nat) : Nat :=
  if bs.length = 16 then leVal bs else 0

/-- Modelled from the spec: `otlpAttrs` converts a wire attribute list into
an `AttrMap`; a later entry for the same key overwrites an earlier one. -/
def otlpAttrs (kvs : List (String × AttrValue)) : AttrMap :=
  kvs.foldl (fun m kv => m.set kv.1 kv.2) []

/-- Modelled from the spec: `otlpSetAttrs` overlays wire attributes onto an
existing map, overwriting on key collision. -/
def otlpSetAttrs (m : AttrMap) (kvs : List (String × AttrValue)) : AttrMap :=
  kvs.foldl (fun m kv => m.set kv.1 kv.2) m

/-- The `for k, v := range span.resource` copy loop of `newSpan`. -/
def copyAttrs (resource : AttrMap) : AttrMap :=
  resource.foldl (fun m kv => m.set kv.1 kv.2) []

/-! ### Internal entities -/

structure SpanEvent where
  name : String := ""
  attrs : AttrMap := []
  time : Nat := 0
deriving DecidableEq

structure SpanLink where
  traceID : Nat := 0
  spanID : Nat := 0
  attrs : AttrMap := []
deriving DecidableEq

structure Span where
  projectID : Nat := 0
  id : Nat := 0
  parentID : Nat := 0
  traceID : Nat := 0
  name : String := ""
  kind : String := ""
  system : String := ""
  groupID : Nat := 0
  time : Nat := 0
  duration : Int := 0
  statusCode : String := ""
  statusMessage : String := ""
  attrs : AttrMap := []
  events : List SpanEvent := []
  links : List SpanLink := []
deriving DecidableEq

/-! ### Go machine-integer helpers -/

/-- Go `uint64` subtraction: wrap-around modulo `2 ^ 64`. -/
def uint64Sub (a b : Nat) : Nat :=
  (m64 + a % m64 - b % m64) % m64

/-- Reinterpretation of a `uint64` value as Go `int64` / `time.Duration`
(two's complement). -/
def int64OfUInt64 (n : Nat) : Int :=
  if n % m64 < 2 ^ 63 then ((n % m64 : Nat) : Int) else ((n % m64 : Nat) : Int) - (m64 : Nat)

/-! ### Span types and event types (source constants) -/

def internalSpanType : String := "internal"

def httpSpanType : String := "http"

def dbSpanType : String := "db"

def rpcSpanType : String := "rpc"

def messagingSpanType : String := "messaging"

def serviceSpanType : String := "service"

def logEventType : String := "log"

def exceptionEventType : String := "exception"

def messageEventType : String := "message"

/-! ### Event renaming (source `eventName`, `joinTypeMessage`, `newSpanEvent`) -/

def joinTypeMessage (typ msg : String) : String :=
  if msg = "" then
    if typ = "" then "" else typ
  else if typ.data.isPrefixOf msg.data then msg
  else typ ++ ": " ++ msg

def eventName (span : Span) (event : SpanEvent) : String :=
  if event.name = logEventType then
    let msg := event.attrs.Text xattr.LogMessage
    if msg ≠ "" then
      let sev := event.attrs.Text xattr.LogSeverity
      if sev ≠ "" then sev ++ " " ++ msg else msg
    else
      let typ := event.attrs.Text xattr.ExceptionType
      let emsg := event.attrs.Text xattr.ExceptionMessage
      if typ ≠ "" ∨ emsg ≠ "" then joinTypeMessage typ emsg else ""
  else if event.name = exceptionEventType then
    joinTypeMessage (event.attrs.Text xattr.ExceptionType)
      (event.attrs.Text xattr.ExceptionMessage)
  else if event.name = messageEventType then
    let op := event.attrs.Text xattr.MessagingOperation
    if op ≠ "" then span.name ++ " " ++ op
    else
      let typ := event.attrs.Text "message.type"
      if typ ≠ "" then span.name ++ " " ++ typ else ""
  else ""

def newSpanEvent (span : Span) (inEvent : WireEvent) : SpanEvent :=
  let event : SpanEvent :=
    { name := inEvent.name
      attrs := otlpAttrs inEvent.attributes
      time := inEvent.timeUnixNano }
  let s := eventName span event
  if s ≠ "" then { event with name := s } else event

def newSpanLink (link : WireLink) : SpanLink :=
  { traceID := otlpTraceID link.traceId
    spanID := otlpSpanID link.spanId
    attrs := otlpAttrs link.attributes }

/-! ### Fingerprinter (source `assignSystemAndGroupID`)

The xxHash digest is modelled by the string of bytes written to it so far;
`digest.WriteString` is string concatenation and `Sum64` is `xxh64` of the
accumulated bytes. -/

def assignSystemAndGroupID (span : Span) (digest : String) : Span × String :=
  if span.attrs.Text xattr.RPCSystem ≠ "" then
    let sys := rpcSpanType ++ ":" ++ span.attrs.ServiceName
    ({ span with system := sys }, digest ++ sys)
  else if span.attrs.Text xattr.MessagingSystem ≠ "" then
    let sys := messagingSpanType ++ ":" ++ span.attrs.Text xattr.MessagingSystem
    ({ span with system := sys }, digest ++ sys)
  else if span.attrs.Text xattr.DBSystem ≠ "" then
    let sys := dbSpanType ++ ":" ++ span.attrs.Text xattr.DBSystem
    let digest1 := digest ++ sys
    let digest2 :=
      if span.attrs.Text xattr.DBSqlTable ≠ "" then
        digest1 ++ span.attrs.Text xattr.DBSqlTable
      else digest1
    let stmt := span.attrs.Text xattr.DBStatement
    if stmt ≠ "" then
      ({ span with system := sys, name := stmt }, digest2 ++ hashDBStmt stmt)
    else
      ({ span with system := sys }, digest2)
  else if span.attrs.Has xattr.HTTPRoute || span.attrs.Has xattr.HTTPTarget then
    let sys := httpSpanType ++ ":" ++ span.attrs.ServiceName
    ({ span with system := sys }, digest ++ sys)
  else if span.parentID = 0 ∨ span.kind ≠ internalSpanKind then
    let sys := serviceSpanType ++ ":" ++ span.attrs.ServiceName
    ({ span with system := sys }, digest ++ sys)
  else
    ({ span with system := internalSpanType }, digest ++ internalSpanType)

/-! ### Span builder (source `newSpan`)

`newSpanBase` is the field-by-field part of `newSpan` (source lines up to
the `Links` loop); `newSpan` then runs the digest over `Kind` and `Name`,
calls `assignSystemAndGroupID`, and stores `Sum64` into `GroupID`. -/

def newSpanBase (resource : AttrMap) (w : WireSpan) : Span :=
  let s0 : Span :=
    { id := otlpSpanID w.spanId
      parentID := otlpSpanID w.parentSpanId
      traceID := otlpTraceID w.traceId
      name := w.name
      kind := otlpSpanKind w.kind
      time := w.startTimeUnixNano
      duration := int64OfUInt64 (uint64Sub w.endTimeUnixNano w.startTimeUnixNano)
      statusCode :=
        match w.status with
        | some st => otlpStatusCode st.code
        | none => ""
      statusMessage :=
        match w.status with
        | some st => st.message
        | none => ""
      attrs := otlpSetAttrs (copyAttrs resource) w.attributes }
  { s0 with
    events := w.events.map (newSpanEvent s0)
    links := w.links.map newSpanLink }

def newSpan (resource : AttrMap) (w : WireSpan) : Span :=
  let s1 := newSpanBase resource w
  let p := assignSystemAndGroupID s1 (s1.kind ++ s1.name)
  { p.1 with groupID := xxh64 (strBytes p.2) }

/-! ### Index projection (source `newSpanIndex`, `attrKeysAndValues`) -/

/-- Modelled from the spec: `truncChars` keeps the longest prefix of the
characters whose UTF-8 encoding fits in `n` bytes. -/
def truncChars (n : Nat) : List Char → List Char
  | [] => []
  | c :: cs =>
      let l := (utf8EncodeChar c).length
      if l ≤ n then c :: truncChars (n - l) cs else []

/-- Modelled from the spec: `truncate` performs a UTF-8-safe truncation of a
string to at most `n` bytes. -/
def truncate (s : String) (n : Nat) : String :=
  String.mk (truncChars n s.data)

def attrKeysAndValues (m : AttrMap) : List String × List String :=
  (m.map (fun kv => kv.1), m.map (fun kv => truncate (asString kv.2) 200))

structure SpanIndex where
  span : Span
  count : Nat := 0
  attrKeys : List String := []
  attrValues : List String := []
  serviceName : String := ""
  hostName : String := ""
  eventCount : Nat := 0
  eventErrorCount : Nat := 0
  eventLogCount : Nat := 0
deriving DecidableEq

def newSpanIndex (span : Span) : SpanIndex :=
  { span := span
    count := 1
    attrKeys := (attrKeysAndValues span.attrs).1
    attrValues := (attrKeysAndValues span.attrs).2
    serviceName := span.attrs.Text xattr.ServiceName
    hostName := span.attrs.Text xattr.HostName
    eventCount := span.events.length % 256
    eventErrorCount := 0
    eventLogCount := 0 }

/-! ### Ingress handler (source `Export`, `findProjectByDSN`) -/

inductive GrpcCode
  | canceled
  | invalidArgument
  | notFound
  | unknown
deriving DecidableEq

/-- An error returned by `Export`: either a gRPC status error created with
`status.Error(code, msg)`, or a plain Go error (which the gRPC transport
surfaces with code `Unknown`). -/
inductive ExportErr
  | statusErr (code : GrpcCode) (msg : String)
  | plainErr (msg : String)
deriving DecidableEq

structure Project where
  id : Nat
  name : String
  token : String
deriving DecidableEq

structure DSN where
  token : String
deriving DecidableEq

/-- Go's `%q` applied to a plain token: the token in double quotes. -/
def goQuote (s : String) : String :=
  "\"" ++ s ++ "\""

/-- Split a character list at the first occurrence of `sep`, returning the
parts before and after it, or `none` when `sep` does not occur. -/
def breakOn (sep : List Char) : List Char → Option (List Char × List Char)
  | [] => if sep.isEmpty then some ([], []) else none
  | c :: cs =>
      if sep.isPrefixOf (c :: cs) then some ([], (c :: cs).drop sep.length)
      else
        match breakOn sep cs with
        | some (pre, post) => some (c :: pre, post)
        | none => none

/-- Modelled from the spec: `org.ParseDSN` parses
`scheme://token@host:port/project-id`; the token is the user-info part
before the first at-sign, and a string without `://` is rejected. -/
def parseDSN (s : String) : Except String DSN :=
  match breakOn (String.data "://") s.data with
  | none => .error ("can't parse DSN: " ++ s)
  | some (_scheme, rest) =>
      match breakOn (String.data "@") rest with
      | some (tok, _) => .ok { token := String.mk tok }
      | none => .ok { token := "" }

def findProjectByDSN (projects : List Project) (dsnStr : String) :
    Except ExportErr Project :=
  if dsnStr = "" then
    .error (.plainErr "uptrace-dsn header can't be empty")
  else
    match parseDSN dsnStr with
    | .error e => .error (.plainErr e)
    | .ok dsn =>
        if dsn.token = "" then
          .error (.plainErr ("dsn " ++ goQuote dsnStr ++ " does not contain a token"))
        else
          match projects.find? (fun p => p.token == dsn.token) with
          | some p => .ok p
          | none =>
              .error (.plainErr ("project with token " ++ goQuote dsn.token ++ " not found"))

/-- The incoming request context: whether it is already cancelled, and the
transport metadata (`none` models `metadata.FromIncomingContext` failing). -/
structure IncomingCtx where
  canceled : Bool
  metadata : Option (List (String × List String))
deriving DecidableEq

def mdGet (md : List (String × List String)) (key : String) : List String :=
  match md.find? (fun kv => kv.1 == key) with
  | some kv => kv.2
  | none => []

def Export (projects : List Project) (ctx : IncomingCtx) : Except ExportErr Unit :=
  if ctx.canceled then
    .error (.statusErr .canceled "Client cancelled, abandoning.")
  else
    match ctx.metadata with
    | none => .error (.plainErr "metadata is empty")
    | some md =>
        match mdGet md "uptrace-dsn" with
        | [] => .error (.plainErr "uptrace-dsn header is required")
        | d :: _ =>
            match findProjectByDSN projects d with
            | .error e => .error e
            | .ok _project => .ok ()

/-! ### Batcher (source `processLoop`)

The loop is modelled as a step function over the buffer state driven by the
three `select` arms (item arrival, timer fire, shutdown signal); a call to
`flushSpans` is modelled by appending the handed-over buffer to `flushed`. -/

structure OtlpSpanItem where
  project : Project
  span : WireSpan
  resource : AttrMap
deriving DecidableEq

inductive BatchEvent
  | arrive (item : OtlpSpanItem)
  | timer
  | shutdown
deriving DecidableEq

structure LoopState where
  buffer : List OtlpSpanItem
  flushed : List (List OtlpSpanItem)
deriving DecidableEq

/-- Hand the current buffer to the flusher and start a fresh buffer. -/
def flushNow (st : LoopState) : LoopState :=
  { buffer := [], flushed := st.flushed ++ [st.buffer] }

/-- One `select` arm of `processLoop`; the Bool is whether the loop
continues (`break loop` on the shutdown signal). -/
def selectArm (st : LoopState) : BatchEvent → LoopState × Bool
  | .arrive x => ({ st with buffer := st.buffer ++ [x] }, true)
  | .timer => (if st.buffer.length > 0 then flushNow st else st, true)
  | .shutdown => (st, false)

/-- The `if len(spans) == s.batchSize` check after the `select`. -/
def checkSize (batchSize : Nat) (st : LoopState) : LoopState :=
  if st.buffer.length = batchSize then flushNow st else st

def stepLoop (batchSize : Nat) (st : LoopState) (ev : BatchEvent) :
    LoopState × Bool :=
  match selectArm st ev with
  | (st1, true) => (checkSize batchSize st1, true)
  | (st1, false) => (st1, false)

/-- The residual flush after the loop exits. -/
def finalFlush (st : LoopState) : LoopState :=
  if st.buffer.length > 0 then flushNow st else st

/-- The batcher loop run over a finite trace of events; it exits at the
first shutdown signal and then flushes any residual buffer. -/
def processLoop (batchSize : Nat) (st : LoopState) : List BatchEvent → LoopState
  | [] => st
  | ev :: evs =>
      match stepLoop batchSize st ev with
      | (st1, true) => processLoop batchSize st1 evs
      | (st1, false) => finalFlush st1

/-- The items carried by the arrival events of a trace, in order. -/
def arrivals : List BatchEvent → List OtlpSpanItem
  | [] => []
  | .arrive x :: evs => x :: arrivals evs
  | _ :: evs => arrivals evs

/-! ### Helper lemmas about the fingerprinter -/

theorem hashDBStmt_empty : hashDBStmt "" = "" := rfl

/-- `assignSystemAndGroupID` only assigns `System` and possibly `Name`;
every other field of the span is unchanged. -/
theorem assign_preserves (s : Span) (d : String) :
    (assignSystemAndGroupID s d).1.attrs = s.attrs ∧
    (assignSystemAndGroupID s d).1.kind = s.kind ∧
    (assignSystemAndGroupID s d).1.duration = s.duration ∧
    (assignSystemAndGroupID s d).1.statusCode = s.statusCode ∧
    (assignSystemAndGroupID s d).1.statusMessage = s.statusMessage ∧
    (assignSystemAndGroupID s d).1.events = s.events ∧
    (assignSystemAndGroupID s d).1.parentID = s.parentID := by
  unfold assignSystemAndGroupID
  dsimp only
  split_ifs <;> exact ⟨rfl, rfl, rfl, rfl, rfl, rfl, rfl⟩

/-- The classification cascade, extracted as a function of the inputs the
source branches on (the merged attributes, the parent id and the kind). -/
def cascadeSystem (a : AttrMap) (parentID : Nat) (kind : String) : String :=
  if a.Text xattr.RPCSystem ≠ "" then rpcSpanType ++ ":" ++ a.ServiceName
  else if a.Text xattr.MessagingSystem ≠ "" then
    messagingSpanType ++ ":" ++ a.Text xattr.MessagingSystem
  else if a.Text xattr.DBSystem ≠ "" then dbSpanType ++ ":" ++ a.Text xattr.DBSystem
  else if a.Has xattr.HTTPRoute || a.Has xattr.HTTPTarget then
    httpSpanType ++ ":" ++ a.ServiceName
  else if parentID = 0 ∨ kind ≠ internalSpanKind then
    serviceSpanType ++ ":" ++ a.ServiceName
  else internalSpanType

theorem assign_system (s : Span) (d : String) :
    (assignSystemAndGroupID s d).1.system = cascadeSystem s.attrs s.parentID s.kind := by
  unfold assignSystemAndGroupID cascadeSystem
  dsimp only
  split_ifs <;> rfl

/-- The db-specific extra bytes written to the digest, per the spec's rule 3:
the `db.sql.table` text followed by the statement's SQL keyword tokens;
empty unless the db rule of the cascade fires. -/
def dbExtras (a : AttrMap) : String :=
  if a.Text xattr.RPCSystem ≠ "" then ""
  else if a.Text xattr.MessagingSystem ≠ "" then ""
  else if a.Text xattr.DBSystem ≠ "" then
    a.Text xattr.DBSqlTable ++ hashDBStmt (a.Text xattr.DBStatement)
  else ""

/-- The bytes accumulated in the digest by `assignSystemAndGroupID` are the
assigned `System` followed by the db extras. -/
theorem assign_digest (s : Span) (d : String) :
    (assignSystemAndGroupID s d).2 =
      d ++ (assignSystemAndGroupID s d).1.system ++ dbExtras s.attrs := by
  unfold assignSystemAndGroupID dbExtras
  dsimp only
  split_ifs with h1 h2 h3 h4 h5 <;>
    simp_all [String.append_empty, String.append_assoc, hashDBStmt_empty]

/-! ### Helper lemmas about the span builder -/

theorem newSpanBase_name (resource : AttrMap) (w : WireSpan) :
    (newSpanBase resource w).name = w.name := rfl

theorem newSpanBase_kind (resource : AttrMap) (w : WireSpan) :
    (newSpanBase resource w).kind = otlpSpanKind w.kind := rfl

theorem newSpanBase_attrs (resource : AttrMap) (w : WireSpan) :
    (newSpanBase resource w).attrs = otlpSetAttrs (copyAttrs resource) w.attributes := rfl

theorem newSpan_attrs (resource : AttrMap) (w : WireSpan) :
    (newSpan resource w).attrs = (newSpanBase resource w).attrs := by
  unfold newSpan
  exact (assign_preserves _ _).1

theorem newSpan_kind (resource : AttrMap) (w : WireSpan) :
    (newSpan resource w).kind = otlpSpanKind w.kind := by
  unfold newSpan
  exact (assign_preserves _ _).2.1

theorem newSpan_duration (resource : AttrMap) (w : WireSpan) :
    (newSpan resource w).duration =
      int64OfUInt64 (uint64Sub w.endTimeUnixNano w.startTimeUnixNano) := by
  unfold newSpan
  exact (assign_preserves _ _).2.2.1

theorem newSpan_statusCode (resource : AttrMap) (w : WireSpan) :
    (newSpan resource w).statusCode =
      (match w.status with
       | some st => otlpStatusCode st.code
       | none => "") := by
  unfold newSpan
  exact (assign_preserves _ _).2.2.2.1

theorem newSpan_statusMessage (resource : AttrMap) (w : WireSpan) :
    (newSpan resource w).statusMessage =
      (match w.status with
       | some st => st.message
       | none => "") := by
  unfold newSpan
  exact (assign_preserves _ _).2.2.2.2.1

theorem newSpan_events (resource : AttrMap) (w : WireSpan) :
    (newSpan resource w).events = (newSpanBase resource w).events := by
  unfold newSpan
  exact (assign_preserves _ _).2.2.2.2.2.1

theorem newSpan_parentID (resource : AttrMap) (w : WireSpan) :
    (newSpan resource w).parentID = otlpSpanID w.parentSpanId := by
  unfold newSpan
  exact (assign_preserves _ _).2.2.2.2.2.2

theorem newSpan_events_length (resource : AttrMap) (w : WireSpan) :
    (newSpan resource w).events.length = w.events.length := by
  rw [newSpan_events]
  exact List.length_map _ _

theorem newSpan_system (resource : AttrMap) (w : WireSpan) :
    (newSpan resource w).system =
      cascadeSystem (newSpan resource w).attrs (newSpan resource w).parentID
        (newSpan resource w).kind := by
  rw [newSpan_attrs, newSpan_kind, newSpan_parentID]
  unfold newSpan
  rw [show (newSpanBase resource w).attrs = otlpSetAttrs (copyAttrs resource) w.attributes from rfl]
  exact assign_system _ _

/-- The `GroupID` of every built span is the xxHash of: the kind, the wire
(pre-rewrite) name, the assigned system, then the db extras. -/
theorem newSpan_groupID (resource : AttrMap) (w : WireSpan) :
    (newSpan resource w).groupID =
      xxh64 (strBytes ((newSpan resource w).kind ++ w.name ++
        (newSpan resource w).system ++ dbExtras (newSpan resource w).attrs)) := by
  rw [newSpan_attrs, newSpan_kind]
  unfold newSpan
  dsimp only
  rw [assign_digest]
  rw [show (assignSystemAndGroupID (newSpanBase resource w)
        ((newSpanBase resource w).kind ++ (newSpanBase resource w).name)).1.system
      = (newSpan resource w).system from rfl]
  rw [newSpanBase_name, newSpanBase_kind]

/-! ### Helper lemmas about attribute maps -/

theorem get_set (m : AttrMap) (k key : String) (v : AttrValue) :
    (m.set k v).get key = if k = key then some v else m.get key := by
  induction m with
  | nil => simp [AttrMap.set, AttrMap.get]
  | cons kv rest ih =>
      obtain ⟨k0, v0⟩ := kv
      by_cases h0 : k0 = k
      · subst h0
        simp only [AttrMap.set, if_pos rfl, AttrMap.get]
        split_ifs <;> simp_all
      · simp only [AttrMap.set, if_neg h0, AttrMap.get, ih]
        by_cases hk : k0 = key
        · subst hk
          have : ¬(k = k0) := fun h => h0 h.symm
          simp [this]
        · simp [hk]

theorem get_foldl_set (kvs : List (String × AttrValue)) (m : AttrMap) (key : String) :
    AttrMap.get (kvs.foldl (fun acc kv => AttrMap.set acc kv.1 kv.2) m) key =
      match AttrMap.get (kvs.foldl (fun acc kv => AttrMap.set acc kv.1 kv.2) []) key with
      | some v => some v
      | none => AttrMap.get m key := by
  induction kvs generalizing m with
  | nil => rfl
  | cons kv rest ih =>
      obtain ⟨k0, v0⟩ := kv
      simp only [List.foldl_cons]
      rw [ih (AttrMap.set m k0 v0), ih (AttrMap.set [] k0 v0)]
      cases h : AttrMap.get (rest.foldl (fun acc kv => AttrMap.set acc kv.1 kv.2) []) key with
      | some v => rfl
      | none =>
          dsimp only
          rw [get_set, get_set]
          by_cases hk : k0 = key
          · simp [hk]
          · simp [hk, AttrMap.get]

/-- `get` is what `Text` inspects, so maps agreeing at a key agree on `Text`. -/
theorem text_congr {m1 m2 : AttrMap} {key : String}
    (h : m1.get key = m2.get key) : m1.Text key = m2.Text key := by
  unfold AttrMap.Text
  rw [h]

/-! ### Helper lemmas about truncation -/

theorem truncChars_byteLen (n : Nat) (cs : List Char) :
    ((truncChars n cs).map (fun c => (utf8EncodeChar c).length)).sum ≤ n := by
  induction cs generalizing n with
  | nil => simp [truncChars]
  | cons c cs ih =>
      unfold truncChars
      dsimp only
      split_ifs with h
      · simp only [List.map_cons, List.sum_cons]
        have := ih (n - (utf8EncodeChar c).length)
        omega
      · simp

theorem utf8Len_truncate (s : String) (n : Nat) : utf8Len (truncate s n) ≤ n :=
  truncChars_byteLen n s.data

/-! ### Helper lemmas about the batcher loop -/

theorem processLoop_shutdown (batchSize : Nat) (st : LoopState) :
    processLoop batchSize st [BatchEvent.shutdown] = finalFlush st := rfl

theorem processLoop_arrive (batchSize : Nat) (st : LoopState) (x : OtlpSpanItem)
    (evs : List BatchEvent) :
    processLoop batchSize st (BatchEvent.arrive x :: evs) =
      processLoop batchSize (checkSize batchSize { st with buffer := st.buffer ++ [x] }) evs :=
  rfl

theorem processLoop_timer (batchSize : Nat) (st : LoopState) (evs : List BatchEvent) :
    processLoop batchSize st (BatchEvent.timer :: evs) =
      processLoop batchSize
        (checkSize batchSize (if st.buffer.length > 0 then flushNow st else st)) evs :=
  rfl

theorem checkSize_small (batchSize : Nat) (st : LoopState)
    (h : st.buffer.length ≠ batchSize) : checkSize batchSize st = st := by
  unfold checkSize
  rw [if_neg h]

/-- Invariant run of the loop: a trace without shutdown signals followed by
the shutdown signal flushes, in order, everything that arrived. -/
theorem processLoop_drain (batchSize : Nat) (hpos : 0 < batchSize) :
    ∀ evs : List BatchEvent, (∀ e ∈ evs, e ≠ BatchEvent.shutdown) →
      ∀ st : LoopState, st.buffer.length < batchSize →
        (processLoop batchSize st (evs ++ [BatchEvent.shutdown])).buffer = [] ∧
        (processLoop batchSize st (evs ++ [BatchEvent.shutdown])).flushed.flatten =
          st.flushed.flatten ++ st.buffer ++ arrivals evs := by
  intro evs
  induction evs with
  | nil =>
      intro _ st _
      rw [List.nil_append, processLoop_shutdown]
      unfold finalFlush
      by_cases h : st.buffer.length > 0
      · rw [if_pos h]
        unfold flushNow
        constructor
        · rfl
        · simp [arrivals]
      · have hb : st.buffer = [] := List.eq_nil_of_length_eq_zero (by omega)
        rw [if_neg h]
        simp [arrivals, hb]
  | cons e evs ih =>
      intro hns st hlt
      have hns' : ∀ x ∈ evs, x ≠ BatchEvent.shutdown := fun x hx =>
        hns x (List.mem_cons_of_mem _ hx)
      cases e with
      | shutdown => exact absurd rfl (hns .shutdown (List.mem_cons_self _ _))
      | arrive x =>
          rw [List.cons_append, processLoop_arrive]
          by_cases h : (st.buffer ++ [x]).length = batchSize
          · have hcs : checkSize batchSize { st with buffer := st.buffer ++ [x] } =
                { buffer := [], flushed := st.flushed ++ [st.buffer ++ [x]] } := by
              unfold checkSize flushNow
              rw [if_pos h]
            rw [hcs]
            have hrun := ih hns' { buffer := [], flushed := st.flushed ++ [st.buffer ++ [x]] }
              (by simpa using hpos)
            refine ⟨hrun.1, ?_⟩
            rw [hrun.2]
            simp [arrivals, List.append_assoc]
          · have hcs : checkSize batchSize { st with buffer := st.buffer ++ [x] } =
                { st with buffer := st.buffer ++ [x] } :=
              checkSize_small _ _ h
            rw [hcs]
            have hlen : (st.buffer ++ [x]).length < batchSize := by
              simp only [List.length_append, List.length_cons, List.length_nil] at h ⊢
              omega
            have hrun := ih hns' { st with buffer := st.buffer ++ [x] } hlen
            refine ⟨hrun.1, ?_⟩
            rw [hrun.2]
            simp [arrivals, List.append_assoc]
      | timer =>
          rw [List.cons_append, processLoop_timer]
          by_cases h : st.buffer.length > 0
          · rw [if_pos h]
            have hcs : checkSize batchSize (flushNow st) = flushNow st :=
              checkSize_small _ _ (by unfold flushNow; simp; omega)
            rw [hcs]
            have hrun := ih hns' (flushNow st) (by unfold flushNow; simpa using hpos)
            refine ⟨hrun.1, ?_⟩
            rw [hrun.2]
            unfold flushNow
            simp [arrivals]
          · have hb : st.buffer = [] := List.eq_nil_of_length_eq_zero (by omega)
            rw [if_neg h]
            have hcs : checkSize batchSize st = st :=
              checkSize_small _ _ (by omega)
            rw [hcs]
            have hrun := ih hns' st hlt
            refine ⟨hrun.1, ?_⟩
            rw [hrun.2]
            simp [arrivals]

/-! ### Claim C1 -/

/-- A db span whose `db.statement` differs from its wire `Name`: the digest
receives the original name, while the claim says it receives the rewritten
one. -/
def wC1 : WireSpan :=
  { name := "query"
    kind := .client
    attributes := [("db.system", .scalar (.str "postgresql")),
                   ("db.statement", .scalar (.str "SELECT id FROM users"))] }

/-- C1: the claim as stated is false.  For the concrete span `wC1` (kind
`client`, name `query`, `db.statement = "SELECT id FROM users"`), the built
span's `GroupID` differs from the xxHash of Kind ++ Name-after-rewrite ++
System ++ db extras, because the source writes `Name` to the digest before
`assignSystemAndGroupID` rewrites it to the statement. -/
theorem c1_counterexample :
    (newSpan [] wC1).groupID ≠
      xxh64 (strBytes ((newSpan [] wC1).kind ++ (newSpan [] wC1).name ++
        (newSpan [] wC1).system ++ dbExtras (newSpan [] wC1).attrs)) := by
  decide

/-- C1 (amended): for every built span, `GroupID` is the 64-bit xxHash of the
concatenation, in this order, of `Kind`, the span's original wire `Name`
(before any rewrite by the db.statement rule), its `System` string, and then
the db-specific extras (`db.sql.table` text and the SQL keyword tokens of
`db.statement`, in that order). -/
theorem c1_amended (resource : AttrMap) (w : WireSpan) :
    (newSpan resource w).groupID =
      xxh64 (strBytes ((newSpan resource w).kind ++ w.name ++
        (newSpan resource w).system ++ dbExtras (newSpan resource w).attrs)) :=
  newSpan_groupID resource w

/-! ### Claim C2 -/

/-- C2: two built spans that agree on name, kind and on every merged
attribute except `db.statement`, both carrying a db system, and whose
statements produce the same sequence of SQL keyword tokens, receive equal
`GroupID`s — non-keyword tokens of the statement never reach the digest. -/
theorem c2_group_collapse (resource : AttrMap) (w1 w2 : WireSpan)
    (hname : w1.name = w2.name) (hkind : w1.kind = w2.kind)
    (hattrs : ∀ k, k ≠ xattr.DBStatement →
      AttrMap.get (newSpan resource w1).attrs k = AttrMap.get (newSpan resource w2).attrs k)
    (hdb : (newSpan resource w1).attrs.Text xattr.DBSystem ≠ "")
    (htok : sqlKeywordTokens ((newSpan resource w1).attrs.Text xattr.DBStatement) =
            sqlKeywordTokens ((newSpan resource w2).attrs.Text xattr.DBStatement)) :
    (newSpan resource w1).groupID = (newSpan resource w2).groupID := by
  have tRPC := @text_congr (newSpan resource w1).attrs (newSpan resource w2).attrs
    xattr.RPCSystem (hattrs xattr.RPCSystem (by decide))
  have tMsg := @text_congr (newSpan resource w1).attrs (newSpan resource w2).attrs
    xattr.MessagingSystem (hattrs xattr.MessagingSystem (by decide))
  have tDB := @text_congr (newSpan resource w1).attrs (newSpan resource w2).attrs
    xattr.DBSystem (hattrs xattr.DBSystem (by decide))
  have tTable := @text_congr (newSpan resource w1).attrs (newSpan resource w2).attrs
    xattr.DBSqlTable (hattrs xattr.DBSqlTable (by decide))
  have tSvc := @text_congr (newSpan resource w1).attrs (newSpan resource w2).attrs
    xattr.ServiceName (hattrs xattr.ServiceName (by decide))
  have hdb2 : (newSpan resource w2).attrs.Text xattr.DBSystem ≠ "" := tDB ▸ hdb
  have hkind2 : (newSpan resource w1).kind = (newSpan resource w2).kind := by
    rw [newSpan_kind, newSpan_kind, hkind]
  have hsys : (newSpan resource w1).system = (newSpan resource w2).system := by
    rw [newSpan_system, newSpan_system]
    unfold cascadeSystem AttrMap.ServiceName
    rw [tRPC, tMsg, tDB, tSvc]
    split_ifs <;> rfl
  have hext : dbExtras (newSpan resource w1).attrs = dbExtras (newSpan resource w2).attrs := by
    unfold dbExtras hashDBStmt
    rw [tRPC, tMsg, tDB, tTable, htok]
  rw [newSpan_groupID, newSpan_groupID, hkind2, hname, hsys, hext]

def wC2a : WireSpan :=
  { name := "query"
    kind := .client
    attributes := [("db.system", .scalar (.str "postgresql")),
                   ("db.sql.table", .scalar (.str "users")),
                   ("db.statement", .scalar (.str "SELECT * FROM users WHERE id = 1"))] }

def wC2b : WireSpan :=
  { name := "query"
    kind := .client
    attributes := [("db.system", .scalar (.str "postgresql")),
                   ("db.sql.table", .scalar (.str "users")),
                   ("db.statement", .scalar (.str "SELECT * FROM users WHERE id = 42"))] }

/-- C2 (witness): the spec's literal scenario — `WHERE id = 1` versus
`WHERE id = 42` with shared system and table — collapses to one `GroupID`. -/
theorem c2_witness :
    sqlKeywordTokens ((newSpan [] wC2a).attrs.Text xattr.DBStatement) =
      sqlKeywordTokens ((newSpan [] wC2b).attrs.Text xattr.DBStatement) ∧
    (newSpan [] wC2a).groupID = (newSpan [] wC2b).groupID := by
  refine ⟨by decide, c2_group_collapse [] wC2a wC2b rfl rfl ?_ (by decide) (by decide)⟩
  intro k hk
  have e1 : (newSpan [] wC2a).attrs =
      [("db.system", .scalar (.str "postgresql")),
       ("db.sql.table", .scalar (.str "users")),
       ("db.statement", .scalar (.str "SELECT * FROM users WHERE id = 1"))] := by decide
  have e2 : (newSpan [] wC2b).attrs =
      [("db.system", .scalar (.str "postgresql")),
       ("db.sql.table", .scalar (.str "users")),
       ("db.statement", .scalar (.str "SELECT * FROM users WHERE id = 42"))] := by decide
  rw [e1, e2]
  by_cases h : "db.statement" = k
  · exact absurd h.symm hk
  · simp [AttrMap.get, h]

/-! ### Claim C3 -/

def wC3 : WireSpan := { startTimeUnixNano := 1, endTimeUnixNano := 0 }

/-- C3: the claim as stated is false.  For a wire span with
`StartTimeUnixNano = 1` and `EndTimeUnixNano = 0` (end ≤ start), the built
`Duration` is `-1` — negative, not saturated at 0 — because the source
computes `time.Duration(end - start)` with wrapping uint64 subtraction. -/
theorem c3_counterexample :
    wC3.endTimeUnixNano ≤ wC3.startTimeUnixNano ∧ (newSpan [] wC3).duration < 0 :=
  ⟨by decide, by decide⟩

/-- C3 (amended): `Duration` is `EndTimeUnixNano − StartTimeUnixNano` wrapped
modulo `2 ^ 64` and reinterpreted as a signed 64-bit value: it is congruent
to the true difference modulo `2 ^ 64` and lies in the int64 range (which
together determine it uniquely), and it equals the exact difference
whenever `start ≤ end` and the difference is below `2 ^ 63`.  There is no
saturation at 0: for end one less than start the wrap gives `-1`
(the counterexample). -/
theorem c3_amended (resource : AttrMap) (w : WireSpan)
    (hs : w.startTimeUnixNano < 2 ^ 64) (he : w.endTimeUnixNano < 2 ^ 64) :
    Int.ModEq (2 ^ 64) ((newSpan resource w).duration)
        ((w.endTimeUnixNano : Int) - (w.startTimeUnixNano : Int)) ∧
    -(2 ^ 63) ≤ (newSpan resource w).duration ∧
    (newSpan resource w).duration < 2 ^ 63 ∧
    (w.startTimeUnixNano ≤ w.endTimeUnixNano →
      w.endTimeUnixNano - w.startTimeUnixNano < 2 ^ 63 →
      (newSpan resource w).duration =
        (w.endTimeUnixNano : Int) - (w.startTimeUnixNano : Int)) := by
  rw [newSpan_duration]
  unfold int64OfUInt64 uint64Sub m64
  unfold Int.ModEq
  refine ⟨?_, ?_, ?_, fun h1 h2 => ?_⟩ <;> split_ifs with h <;> omega

def wC3w : WireSpan := { startTimeUnixNano := 5, endTimeUnixNano := 12 }

/-- C3 (witness): a concrete in-range span with `start = 5`, `end = 12` gets
`Duration = 7`. -/
theorem c3_witness :
    wC3w.startTimeUnixNano < 2 ^ 64 ∧ wC3w.endTimeUnixNano < 2 ^ 64 ∧
    (newSpan [] wC3w).duration =
      (wC3w.endTimeUnixNano : Int) - (wC3w.startTimeUnixNano : Int) :=
  ⟨by decide, by decide,
    (c3_amended [] wC3w (by decide) (by decide)).2.2.2 (by decide) (by decide)⟩

/-! ### Claim C4 -/

/-- The claim's notion of failing with a given gRPC status code: the handler
returned an error created with `status.Error(code, msg)` for some message. -/
def failsWithCode (r : Except ExportErr Unit) (c : GrpcCode) : Prop :=
  ∃ msg, r = .error (.statusErr c msg)

def demoProjects : List Project := [{ id := 1, name := "p", token := "tok123" }]

/-- C4: the claim as stated is false.  With absent transport metadata the
handler returns the plain error `metadata is empty` built with
`errors.New`, not a gRPC status error with code `InvalidArgument`; the gRPC
transport therefore surfaces it as `Unknown`. -/
theorem c4_counterexample :
    Export demoProjects { canceled := false, metadata := none } =
      .error (.plainErr "metadata is empty") ∧
    ¬ failsWithCode (Export demoProjects { canceled := false, metadata := none })
        GrpcCode.invalidArgument := by
  refine ⟨rfl, ?_⟩
  rintro ⟨msg, h⟩
  rw [show Export demoProjects { canceled := false, metadata := none } =
      .error (.plainErr "metadata is empty") from rfl] at h
  simp at h

/-- C4 (amended): `Export` fails with gRPC status `Cancelled` when the
context is already cancelled; with the plain (non-status) errors
`metadata is empty` and `uptrace-dsn header is required` when the metadata
or header is missing; with a plain error carrying the quoted token when the
token matches no configured project; and succeeds with the empty response
on a known token.  Only the cancellation path carries a gRPC status code —
the others surface as code `Unknown`. -/
theorem c4_amended (projects : List Project) (ctx : IncomingCtx) :
    (ctx.canceled = true →
      Export projects ctx = .error (.statusErr .canceled "Client cancelled, abandoning.")) ∧
    (ctx.canceled = false → ctx.metadata = none →
      Export projects ctx = .error (.plainErr "metadata is empty")) ∧
    (∀ md, ctx.canceled = false → ctx.metadata = some md →
      mdGet md "uptrace-dsn" = [] →
      Export projects ctx = .error (.plainErr "uptrace-dsn header is required")) ∧
    (∀ md d rest t, ctx.canceled = false → ctx.metadata = some md →
      mdGet md "uptrace-dsn" = d :: rest → d ≠ "" →
      parseDSN d = .ok { token := t } → t ≠ "" →
      projects.find? (fun p => p.token == t) = none →
      Export projects ctx =
        .error (.plainErr ("project with token " ++ goQuote t ++ " not found"))) ∧
    (∀ md d rest t p, ctx.canceled = false → ctx.metadata = some md →
      mdGet md "uptrace-dsn" = d :: rest → d ≠ "" →
      parseDSN d = .ok { token := t } → t ≠ "" →
      projects.find? (fun p => p.token == t) = some p →
      Export projects ctx = .ok ()) := by
  refine ⟨?_, ?_, ?_, ?_, ?_⟩
  · intro hc
    unfold Export
    rw [hc]
    rfl
  · intro hc hmd
    unfold Export
    rw [hc, hmd]
    rfl
  · intro md hc hmd hget
    unfold Export
    rw [hc, hmd]
    dsimp only
    rw [hget]
    rfl
  · intro md d rest t hc hmd hget hne hparse ht hfind
    unfold Export
    rw [hc, hmd]
    dsimp only
    rw [hget]
    dsimp only
    unfold findProjectByDSN
    rw [if_neg hne, hparse]
    dsimp only
    rw [if_neg ht, hfind]
    rfl
  · intro md d rest t p hc hmd hget hne hparse ht hfind
    unfold Export
    rw [hc, hmd]
    dsimp only
    rw [hget]
    dsimp only
    unfold findProjectByDSN
    rw [if_neg hne, hparse]
    dsimp only
    rw [if_neg ht, hfind]
    rfl

/-- C4 (witness): a concrete unknown-token request gets the plain
`project with token "bad" not found` error, applying the amended theorem. -/
theorem c4_witness :
    Export demoProjects
        { canceled := false,
          metadata := some [("uptrace-dsn", ["https://bad@localhost:14317/1"])] } =
      .error (.plainErr ("project with token " ++ goQuote "bad" ++ " not found")) :=
  (c4_amended demoProjects
      { canceled := false,
        metadata := some [("uptrace-dsn", ["https://bad@localhost:14317/1"])] }).2.2.2.1
    [("uptrace-dsn", ["https://bad@localhost:14317/1"])]
    "https://bad@localhost:14317/1" [] "bad" rfl rfl rfl (by decide) rfl (by decide) rfl

/-! ### Claim C5 -/

/-- C5: classification is a priority cascade over the built span: the first
matching rule in the order rpc, messaging, db, http, service-fallback,
internal decides `System`; in particular a span carrying both `rpc.system`
and `http.route`/`http.target` is classified `rpc:`. -/
theorem c5_cascade (resource : AttrMap) (w : WireSpan) :
    ((newSpan resource w).attrs.Text xattr.RPCSystem ≠ "" →
      (newSpan resource w).system =
        rpcSpanType ++ ":" ++ (newSpan resource w).attrs.ServiceName) ∧
    ((newSpan resource w).attrs.Text xattr.RPCSystem = "" →
      (newSpan resource w).attrs.Text xattr.MessagingSystem ≠ "" →
      (newSpan resource w).system =
        messagingSpanType ++ ":" ++ (newSpan resource w).attrs.Text xattr.MessagingSystem) ∧
    ((newSpan resource w).attrs.Text xattr.RPCSystem = "" →
      (newSpan resource w).attrs.Text xattr.MessagingSystem = "" →
      (newSpan resource w).attrs.Text xattr.DBSystem ≠ "" →
      (newSpan resource w).system =
        dbSpanType ++ ":" ++ (newSpan resource w).attrs.Text xattr.DBSystem) ∧
    ((newSpan resource w).attrs.Text xattr.RPCSystem = "" →
      (newSpan resource w).attrs.Text xattr.MessagingSystem = "" →
      (newSpan resource w).attrs.Text xattr.DBSystem = "" →
      ((newSpan resource w).attrs.Has xattr.HTTPRoute ||
        (newSpan resource w).attrs.Has xattr.HTTPTarget) = true →
      (newSpan resource w).system =
        httpSpanType ++ ":" ++ (newSpan resource w).attrs.ServiceName) ∧
    ((newSpan resource w).attrs.Text xattr.RPCSystem = "" →
      (newSpan resource w).attrs.Text xattr.MessagingSystem = "" →
      (newSpan resource w).attrs.Text xattr.DBSystem = "" →
      (newSpan resource w).attrs.Has xattr.HTTPRoute = false →
      (newSpan resource w).attrs.Has xattr.HTTPTarget = false →
      ((newSpan resource w).parentID = 0 ∨ (newSpan resource w).kind ≠ internalSpanKind) →
      (newSpan resource w).system =
        serviceSpanType ++ ":" ++ (newSpan resource w).attrs.ServiceName) ∧
    ((newSpan resource w).attrs.Text xattr.RPCSystem = "" →
      (newSpan resource w).attrs.Text xattr.MessagingSystem = "" →
      (newSpan resource w).attrs.Text xattr.DBSystem = "" →
      (newSpan resource w).attrs.Has xattr.HTTPRoute = false →
      (newSpan resource w).attrs.Has xattr.HTTPTarget = false →
      (newSpan resource w).parentID ≠ 0 → (newSpan resource w).kind = internalSpanKind →
      (newSpan resource w).system = internalSpanType) := by
  rw [newSpan_system]
  unfold cascadeSystem
  refine ⟨fun h1 => ?_, fun h1 h2 => ?_, fun h1 h2 h3 => ?_, fun h1 h2 h3 h4 => ?_,
    fun h1 h2 h3 h4 h5 h6 => ?_, fun h1 h2 h3 h4 h5 h6 h7 => ?_⟩
  · rw [if_pos h1]
  · rw [if_neg (by simp [h1]), if_pos h2]
  · rw [if_neg (by simp [h1]), if_neg (by simp [h2]), if_pos h3]
  · rw [if_neg (by simp [h1]), if_neg (by simp [h2]), if_neg (by simp [h3]), if_pos h4]
  · rw [if_neg (by simp [h1]), if_neg (by simp [h2]), if_neg (by simp [h3]),
      if_neg (by simp [h4, h5]), if_pos h6]
  · rw [if_neg (by simp [h1]), if_neg (by simp [h2]), if_neg (by simp [h3]),
      if_neg (by simp [h4, h5]), if_neg (by simp [h6, h7])]

def wC5 : WireSpan :=
  { kind := .server
    attributes := [("rpc.system", .scalar (.str "grpc")),
                   ("http.route", .scalar (.str "/users/:id")),
                   ("service.name", .scalar (.str "api"))] }

/-- C5 (witness): a concrete span with both `rpc.system` and `http.route`
set is classified `rpc:api`, by the first conjunct of the cascade. -/
theorem c5_witness :
    (newSpan [] wC5).attrs.Text xattr.RPCSystem ≠ "" ∧
    (newSpan [] wC5).attrs.Has xattr.HTTPRoute = true ∧
    (newSpan [] wC5).system =
      rpcSpanType ++ ":" ++ (newSpan [] wC5).attrs.ServiceName :=
  ⟨by decide, by decide, (c5_cascade [] wC5).1 (by decide)⟩

/-! ### Claim C6 -/

/-- C6: when a key occurs both in the resource attributes (copied first) and
in the span's own attributes, the merged `Attrs` carries the span value —
span attributes overwrite resource attributes on collision. -/
theorem c6_span_attrs_win (resource : AttrMap) (w : WireSpan) (k : String)
    (a b : AttrValue)
    (hres : AttrMap.get (copyAttrs resource) k = some a)
    (hspan : AttrMap.get (otlpAttrs w.attributes) k = some b) :
    AttrMap.get (newSpan resource w).attrs k = some b := by
  rw [newSpan_attrs, newSpanBase_attrs]
  unfold otlpSetAttrs
  rw [get_foldl_set]
  unfold otlpAttrs at hspan
  rw [hspan]

def resC6 : AttrMap := [("deployment.environment", .scalar (.str "prod"))]

def wC6 : WireSpan :=
  { attributes := [("deployment.environment", .scalar (.str "staging"))] }

/-- C6 (witness): the resource sets `deployment.environment=prod`, the span
sets `deployment.environment=staging`; the merged map carries `staging`. -/
theorem c6_witness :
    AttrMap.get (copyAttrs resC6) "deployment.environment" =
      some (.scalar (.str "prod")) ∧
    AttrMap.get (newSpan resC6 wC6).attrs "deployment.environment" =
      some (.scalar (.str "staging")) :=
  ⟨by decide,
    c6_span_attrs_win resC6 wC6 "deployment.environment"
      (.scalar (.str "prod")) (.scalar (.str "staging")) (by decide) (by decide)⟩

/-! ### Claim C7 -/

/-- C7: in every built `SpanIndex` the `AttrKeys` and `AttrValues` arrays
have equal length (one entry per key of the merged attribute map), and every
`AttrValues` entry is at most 200 bytes long after truncation. -/
theorem c7_attr_arrays (resource : AttrMap) (w : WireSpan) :
    (newSpanIndex (newSpan resource w)).attrKeys.length =
      (newSpanIndex (newSpan resource w)).attrValues.length ∧
    (newSpanIndex (newSpan resource w)).attrKeys.length =
      (newSpan resource w).attrs.length ∧
    ∀ v ∈ (newSpanIndex (newSpan resource w)).attrValues, utf8Len v ≤ 200 := by
  refine ⟨?_, ?_, ?_⟩
  · show ((attrKeysAndValues (newSpan resource w).attrs).1).length =
      ((attrKeysAndValues (newSpan resource w).attrs).2).length
    unfold attrKeysAndValues
    simp
  · show ((attrKeysAndValues (newSpan resource w).attrs).1).length = _
    unfold attrKeysAndValues
    simp
  · intro v hv
    have hv' : v ∈ (newSpan resource w).attrs.map
        (fun kv => truncate (asString kv.2) 200) := hv
    obtain ⟨kv, _, hkv⟩ := List.mem_map.mp hv'
    rw [← hkv]
    exact utf8Len_truncate _ _

def wC7 : WireSpan :=
  { attributes := [("http.url", .scalar (.str (String.mk (List.replicate 300 'a'))))] }

/-- C7 (witness): a 300-byte attribute value is truncated to a 200-byte
entry of `AttrValues`, whose length the theorem bounds by 200. -/
theorem c7_witness :
    String.mk (List.replicate 200 'a') ∈ (newSpanIndex (newSpan [] wC7)).attrValues ∧
    utf8Len (String.mk (List.replicate 200 'a')) ≤ 200 :=
  ⟨by decide, (c7_attr_arrays [] wC7).2.2 (String.mk (List.replicate 200 'a')) (by decide)⟩

/-! ### Claim C8 -/

def wC8 : WireSpan := { events := List.replicate 256 {} }

/-- C8: the claim as stated is false.  For a span with 256 events the built
index's `EventCount` is 0 — the `uint8(len(span.Events))` conversion wraps
modulo 256 — while `min(len(Events), 255)` would be 255. -/
theorem c8_counterexample :
    (newSpan [] wC8).events.length = 256 ∧
    (newSpanIndex (newSpan [] wC8)).eventCount = 0 ∧
    min (newSpan [] wC8).events.length 255 = 255 := by
  refine ⟨by decide, by decide, by decide⟩

/-- C8 (amended): `EventCount` is `len(Events) mod 256` — it wraps modulo
256 rather than saturating at 255 — where the built span has exactly one
event per wire event; `EventErrorCount` and `EventLogCount` are 0. -/
theorem c8_amended (resource : AttrMap) (w : WireSpan) :
    (newSpanIndex (newSpan resource w)).eventCount < 256 ∧
    Nat.ModEq 256 (newSpanIndex (newSpan resource w)).eventCount w.events.length ∧
    (newSpanIndex (newSpan resource w)).eventCount =
      (newSpan resource w).events.length % 256 ∧
    (newSpan resource w).events.length = w.events.length ∧
    (newSpanIndex (newSpan resource w)).eventErrorCount = 0 ∧
    (newSpanIndex (newSpan resource w)).eventLogCount = 0 := by
  have hlen : (newSpan resource w).events.length = w.events.length :=
    newSpan_events_length resource w
  have hec : (newSpanIndex (newSpan resource w)).eventCount =
      (newSpan resource w).events.length % 256 := rfl
  refine ⟨?_, ?_, hec, hlen, rfl, rfl⟩
  · rw [hec]
    exact Nat.mod_lt _ (by norm_num)
  · rw [hec, hlen]
    unfold Nat.ModEq
    rw [Nat.mod_mod_of_dvd _ dvd_rfl]

/-! ### Claim C9 -/

def demoItem : OtlpSpanItem :=
  { project := { id := 1, name := "p", token := "tok123" }
    span := {}
    resource := [] }

/-- C9: the batcher loop (a) flushes the buffer as one batch of exactly
`batchSize` items and starts a fresh buffer as soon as an arrival fills it,
(b) on a timer fire with a non-empty buffer flushes it as one batch of its
current length, and (c) exiting on the shutdown signal flushes any residual
buffer, so a run over arrivals and timers ending in shutdown leaves an
empty buffer and has flushed exactly the arrived items in order. -/
theorem c9_batcher (batchSize : Nat) (hpos : 0 < batchSize) :
    (∀ (st : LoopState) (x : OtlpSpanItem),
      st.buffer.length + 1 = batchSize →
      stepLoop batchSize st (BatchEvent.arrive x) =
        ({ buffer := [], flushed := st.flushed ++ [st.buffer ++ [x]] }, true) ∧
      (st.buffer ++ [x]).length = batchSize) ∧
    (∀ st : LoopState, 0 < st.buffer.length →
      stepLoop batchSize st BatchEvent.timer =
        ({ buffer := [], flushed := st.flushed ++ [st.buffer] }, true)) ∧
    (∀ evs : List BatchEvent, (∀ e ∈ evs, e ≠ BatchEvent.shutdown) →
      (processLoop batchSize { buffer := [], flushed := [] }
          (evs ++ [BatchEvent.shutdown])).buffer = [] ∧
      (processLoop batchSize { buffer := [], flushed := [] }
          (evs ++ [BatchEvent.shutdown])).flushed.flatten = arrivals evs) := by
  refine ⟨?_, ?_, ?_⟩
  · intro st x hfull
    have hlen : (st.buffer ++ [x]).length = batchSize := by
      simp only [List.length_append, List.length_cons, List.length_nil]
      omega
    constructor
    · show (checkSize batchSize { st with buffer := st.buffer ++ [x] }, true) = _
      unfold checkSize flushNow
      rw [if_pos hlen]
    · exact hlen
  · intro st hne
    show (checkSize batchSize (if st.buffer.length > 0 then flushNow st else st), true) = _
    rw [if_pos hne]
    have : checkSize batchSize (flushNow st) = flushNow st :=
      checkSize_small _ _ (by unfold flushNow; simp; omega)
    rw [this]
    rfl
  · intro evs hns
    have h := processLoop_drain batchSize hpos evs hns { buffer := [], flushed := [] }
      (by simpa using hpos)
    exact ⟨h.1, by simpa using h.2⟩

/-- C9 (witness): with `batchSize = 2`, the trace
arrive, timer, arrive, shutdown flushes everything that arrived, in order,
and leaves an empty buffer. -/
theorem c9_witness :
    (0 : Nat) < 2 ∧
    (processLoop 2 { buffer := [], flushed := [] }
        ([BatchEvent.arrive demoItem, BatchEvent.timer, BatchEvent.arrive demoItem] ++
          [BatchEvent.shutdown])).buffer = [] ∧
    (processLoop 2 { buffer := [], flushed := [] }
        ([BatchEvent.arrive demoItem, BatchEvent.timer, BatchEvent.arrive demoItem] ++
          [BatchEvent.shutdown])).flushed.flatten =
      arrivals [BatchEvent.arrive demoItem, BatchEvent.timer, BatchEvent.arrive demoItem] := by
  refine ⟨by decide, ?_, ?_⟩
  · exact ((c9_batcher 2 (by decide)).2.2
      [BatchEvent.arrive demoItem, BatchEvent.timer, BatchEvent.arrive demoItem]
      (by decide)).1
  · exact ((c9_batcher 2 (by decide)).2.2
      [BatchEvent.arrive demoItem, BatchEvent.timer, BatchEvent.arrive demoItem]
      (by decide)).2

/-! ### Claim C10 -/

/-- C10: when the wire `Status` is absent the built span keeps the zero
values — `StatusCode` and `StatusMessage` are empty strings, not "unset";
the unset→"unset" mapping applies only when a `Status` object is present
with the unset code. -/
theorem c10_status (resource : AttrMap) (w : WireSpan) :
    (w.status = none →
      (newSpan resource w).statusCode = "" ∧ (newSpan resource w).statusMessage = "") ∧
    (∀ st, w.status = some st →
      (newSpan resource w).statusCode = otlpStatusCode st.code ∧
      (newSpan resource w).statusMessage = st.message) ∧
    (∀ st, w.status = some st → st.code = OtlpStatusCode.unset →
      (newSpan resource w).statusCode = "unset") := by
  refine ⟨fun h => ?_, fun st h => ?_, fun st h hcode => ?_⟩
  · rw [newSpan_statusCode, newSpan_statusMessage, h]
    exact ⟨rfl, rfl⟩
  · rw [newSpan_statusCode, newSpan_statusMessage, h]
    exact ⟨rfl, rfl⟩
  · rw [newSpan_statusCode, h]
    dsimp only
    rw [hcode]
    rfl

def wC10 : WireSpan := { name := "s" }

def wC10u : WireSpan := { name := "s", status := some { code := .unset, message := "" } }

/-- C10 (witness): a concrete wire span without a `Status` gets empty
`StatusCode` and `StatusMessage`, and one with a present unset `Status`
gets "unset", both by the theorem. -/
theorem c10_witness :
    ((newSpan [] wC10).statusCode = "" ∧ (newSpan [] wC10).statusMessage = "") ∧
    (newSpan [] wC10u).statusCode = "unset" :=
  ⟨(c10_status [] wC10).1 rfl,
    (c10_status [] wC10u).2.2 { code := .unset, message := "" } rfl rfl⟩

end Uptrace
